import Mathlib

/-!
Verification of the asynchronous refresh core of the stock-visualizer
repository: the update scheduler (BackgroundUpdater in stockvision.py),
the cross-thread hand-off mailbox and crossfade engine (SurfaceManager in
src/display/surface_manager.py), the staged refresh pipeline
(BackgroundUpdater._do_update together with StockFetcher.fetch_data), and
the image-synthesis wrapper (SimplifiedDiffusionPipeline.generate in
src/diffusion/simplified_pipeline.py).

Timestamps and durations are modelled as rationals. Opaque image and
snapshot payloads are modelled as natural-number handles; converting a PIL
image to a pygame surface keeps the handle. The mutex in stockvision.py
linearizes every scheduler transition, so the scheduler is embedded as a
sequential step function over linearized event traces.
-/

namespace StockVision

/-- Scheduler state of BackgroundUpdater (stockvision.py, lines 45-47):
the is_updating flag and the last_attempt timestamp. The update_thread
handle is not data any claim touches and is not modelled. -/
structure UpdaterState where
  is_updating : Bool
  last_attempt : ℚ
  deriving DecidableEq, Repr

namespace BackgroundUpdater

/-- BackgroundUpdater.update_background (stockvision.py, lines 134-150):
under the lock, refuse when already updating or when the interval has not
elapsed; otherwise set is_updating, stamp last_attempt := now and start a
cycle. Returns whether a cycle was started, with the new state. -/
def update_background (interval now : ℚ) (s : UpdaterState) : Bool × UpdaterState :=
  if s.is_updating = true ∨ now - s.last_attempt < interval then
    (false, s)
  else
    (true, { s with is_updating := true, last_attempt := now })

/-- The finally block of BackgroundUpdater._do_update (stockvision.py,
lines 129-132): under the lock, clear is_updating. -/
def finish (s : UpdaterState) : UpdaterState :=
  { s with is_updating := false }

/-- BackgroundUpdater.should_update (stockvision.py, lines 152-154):
time.time() - self.last_attempt >= UPDATE_INTERVAL. -/
def should_update (interval now : ℚ) (s : UpdaterState) : Bool :=
  decide (interval ≤ now - s.last_attempt)

/-- The force-refresh key handler (stockvision.py, lines 217-219):
pressing the key sets last_attempt := 0 to make the next periodic check
fire. -/
def force_refresh (s : UpdaterState) : UpdaterState :=
  { s with last_attempt := 0 }

/-- One linearized scheduler event: a call to update_background at a given
time (periodic trigger, or the periodic check right after a forced reset),
the finally block of a finishing cycle, or the force-refresh key handler. -/
inductive SchedEvent
  | tryStart (now : ℚ)
  | finish
  | force
  deriving DecidableEq, Repr

/-- Run a linearized trace of scheduler events, recording for each event
whether it started a cycle (finish and force events record false). -/
def schedResults (interval : ℚ) : UpdaterState → List SchedEvent → List Bool
  | _, [] => []
  | s, SchedEvent.tryStart now :: es =>
      (update_background interval now s).1 ::
        schedResults interval (update_background interval now s).2 es
  | s, SchedEvent.finish :: es =>
      false :: schedResults interval (finish s) es
  | s, SchedEvent.force :: es =>
      false :: schedResults interval (force_refresh s) es

theorem update_background_busy (interval now : ℚ) (s : UpdaterState)
    (h : s.is_updating = true) :
    update_background interval now s = (false, s) := by
  simp [update_background, h]

theorem update_background_success (interval now : ℚ) (s : UpdaterState)
    (h : (update_background interval now s).1 = true) :
    update_background interval now s = (true, ⟨true, now⟩) := by
  by_cases hc : s.is_updating = true ∨ now - s.last_attempt < interval
  · simp [update_background, hc] at h
  · simp [update_background, hc]

/-- While is_updating is true, no tryStart in the trace can record a
success before some finish event has run: the success at position k needs a
finish at an earlier position of the event list. -/
theorem busy_success_needs_finish (interval : ℚ) :
    ∀ (es : List SchedEvent) (s : UpdaterState) (k : ℕ),
      s.is_updating = true →
      (schedResults interval s es).get? k = some true →
      ∃ j, j < k ∧ es.get? j = some SchedEvent.finish := by
  intro es
  induction es with
  | nil =>
    intro s k _ h
    simp [schedResults] at h
  | cons e es ih =>
    intro s k hbusy h
    cases e with
    | tryStart now =>
      rw [schedResults, update_background_busy interval now s hbusy] at h
      cases k with
      | zero => simp at h
      | succ k =>
        rw [List.get?_cons_succ] at h
        obtain ⟨j, hj, hje⟩ := ih s k hbusy h
        exact ⟨j + 1, by omega, by simpa using hje⟩
    | finish =>
      cases k with
      | zero => rw [schedResults] at h; simp at h
      | succ k => exact ⟨0, by omega, rfl⟩
    | force =>
      cases k with
      | zero => rw [schedResults] at h; simp at h
      | succ k =>
        rw [schedResults, List.get?_cons_succ] at h
        obtain ⟨j, hj, hje⟩ := ih (force_refresh s) k hbusy h
        exact ⟨j + 1, by omega, by simpa using hje⟩

end BackgroundUpdater

open BackgroundUpdater in
/-- C1. Single-flight: in every linearized trace of scheduler events
(periodic update_background calls, forced resets, cycle finishes), if two
calls observe success then a finish event lies strictly between them: at
most one call starts a cycle while a prior success has not yet run its
finally block. -/
theorem single_flight (interval : ℚ) (s : UpdaterState) (es : List SchedEvent)
    (i j : ℕ) (hij : i < j)
    (hi : (schedResults interval s es).get? i = some true)
    (hj : (schedResults interval s es).get? j = some true) :
    ∃ k, i < k ∧ k < j ∧ es.get? k = some SchedEvent.finish := by
  induction es generalizing s i j with
  | nil => simp [schedResults] at hi
  | cons e es ih =>
    cases i with
    | zero =>
      obtain ⟨j', rfl⟩ : ∃ j', j = j' + 1 := ⟨j - 1, by omega⟩
      cases e with
      | tryStart now =>
        rw [schedResults] at hi hj
        rw [List.get?_cons_zero, Option.some_inj] at hi
        have hsucc := update_background_success interval now s hi
        rw [List.get?_cons_succ, hsucc] at hj
        obtain ⟨m, hm, hme⟩ :=
          busy_success_needs_finish interval es ⟨true, now⟩ j' rfl hj
        exact ⟨m + 1, by omega, by omega, by simpa using hme⟩
      | finish => rw [schedResults] at hi; simp at hi
      | force => rw [schedResults] at hi; simp at hi
    | succ i' =>
      obtain ⟨j', rfl⟩ : ∃ j', j = j' + 1 := ⟨j - 1, by omega⟩
      have hij' : i' < j' := by omega
      cases e with
      | tryStart now =>
        rw [schedResults, List.get?_cons_succ] at hi hj
        obtain ⟨k, hk1, hk2, hke⟩ :=
          ih (update_background interval now s).2 i' j' hij' hi hj
        exact ⟨k + 1, by omega, by omega, by simpa using hke⟩
      | finish =>
        rw [schedResults, List.get?_cons_succ] at hi hj
        obtain ⟨k, hk1, hk2, hke⟩ := ih (finish s) i' j' hij' hi hj
        exact ⟨k + 1, by omega, by omega, by simpa using hke⟩
      | force =>
        rw [schedResults, List.get?_cons_succ] at hi hj
        obtain ⟨k, hk1, hk2, hke⟩ := ih (force_refresh s) i' j' hij' hi hj
        exact ⟨k + 1, by omega, by omega, by simpa using hke⟩

/-- Witness for C1 on the concrete trace tryStart 10, finish, tryStart 20
with interval 1 from the idle state: positions 0 and 2 both succeed, and
the theorem produces the finish strictly between them. -/
theorem single_flight_witness :
    ∃ k, 0 < k ∧ k < 2 ∧
      ([BackgroundUpdater.SchedEvent.tryStart 10, BackgroundUpdater.SchedEvent.finish,
        BackgroundUpdater.SchedEvent.tryStart 20].get? k
        = some BackgroundUpdater.SchedEvent.finish) :=
  single_flight 1 ⟨false, 0⟩
    [BackgroundUpdater.SchedEvent.tryStart 10, BackgroundUpdater.SchedEvent.finish,
      BackgroundUpdater.SchedEvent.tryStart 20]
    0 2 (by decide)
    (by norm_num [BackgroundUpdater.schedResults, BackgroundUpdater.update_background,
      BackgroundUpdater.finish])
    (by norm_num [BackgroundUpdater.schedResults, BackgroundUpdater.update_background,
      BackgroundUpdater.finish])

/-- C3 counterexample: the claimed equivalence for should_update fails at
the concrete state (is_updating = true, last_attempt = 0) with interval 1
at time 5: should_update returns true although a cycle is in flight, so
the claimed (no cycle in flight AND interval elapsed) right-hand side is
false. -/
theorem should_update_claim_false :
    ¬ (BackgroundUpdater.should_update 1 5 ⟨true, 0⟩ = true ↔
        ((UpdaterState.mk true 0).is_updating = false ∧
          (1 : ℚ) ≤ 5 - (UpdaterState.mk true 0).last_attempt)) := by
  intro h
  have h1 : BackgroundUpdater.should_update 1 5 ⟨true, 0⟩ = true := by
    norm_num [BackgroundUpdater.should_update]
  have h2 := (h.mp h1).1
  simp at h2

/-- C3 (amended). should_update returns true iff the interval has elapsed
since last_attempt, regardless of the in-flight flag (the in-flight guard
is enforced separately inside update_background); and it is false
immediately after any successful update_background when the interval is
positive. -/
theorem should_update_spec (interval now : ℚ) (s : UpdaterState) :
    (BackgroundUpdater.should_update interval now s = true ↔
      interval ≤ now - s.last_attempt) ∧
    (0 < interval → ∀ s' : UpdaterState,
      BackgroundUpdater.update_background interval now s = (true, s') →
      BackgroundUpdater.should_update interval now s' = false) := by
  constructor
  · simp [BackgroundUpdater.should_update]
  · intro hpos s' h
    have h1 : (BackgroundUpdater.update_background interval now s).1 = true := by
      rw [h]
    have h2 := BackgroundUpdater.update_background_success interval now s h1
    rw [h2] at h
    have h3 : (⟨true, now⟩ : UpdaterState) = s' := congrArg Prod.snd h
    subst h3
    simp [BackgroundUpdater.should_update]
    linarith

/-- Witness for C3 (amended): a successful update_background at time 5
from the idle state leaves a state on which should_update is false. -/
theorem should_update_spec_witness :
    BackgroundUpdater.should_update 1 5 ⟨true, 5⟩ = false :=
  (should_update_spec 1 5 ⟨false, 0⟩).2 (by norm_num) ⟨true, 5⟩
    (by norm_num [BackgroundUpdater.update_background])

/-- C4 counterexample: the force-refresh key handler does alter
last_attempt: starting from the in-flight state with last_attempt = 100
it rewrites last_attempt to 0. -/
theorem force_refresh_claim_false :
    (BackgroundUpdater.force_refresh ⟨true, 100⟩).last_attempt ≠
      (UpdaterState.mk true 100).last_attempt := by
  norm_num [BackgroundUpdater.force_refresh]

/-- C4 (amended). While a cycle is in flight, the forced trigger starts no
new cycle: update_background after the key handler returns false and
leaves the state unchanged; but the key handler itself rewrites
last_attempt to 0 (so a refresh starts as soon as the running cycle
finishes), rather than leaving last_attempt unaltered. -/
theorem force_while_busy (interval now : ℚ) (s : UpdaterState)
    (h : s.is_updating = true) :
    BackgroundUpdater.update_background interval now (BackgroundUpdater.force_refresh s) =
      (false, BackgroundUpdater.force_refresh s) ∧
    (BackgroundUpdater.force_refresh s).last_attempt = 0 :=
  ⟨BackgroundUpdater.update_background_busy interval now _ h, rfl⟩

/-- Witness for C4 (amended) at the concrete in-flight state with
last_attempt = 100, interval 1, time 5. -/
theorem force_while_busy_witness :
    BackgroundUpdater.update_background 1 5 (BackgroundUpdater.force_refresh ⟨true, 100⟩) =
      (false, BackgroundUpdater.force_refresh ⟨true, 100⟩) ∧
    (BackgroundUpdater.force_refresh ⟨true, 100⟩).last_attempt = 0 :=
  force_while_busy 1 5 ⟨true, 100⟩ rfl

/-- An opaque image payload travelling through the mailbox: either the
chart rendered from a stock snapshot (Image.fromarray of the chart array)
or an image produced by the diffusion pipeline. Snapshots and generated
images are opaque handles. -/
inductive ImageData
  | chart (snapshot : ℕ)
  | generated (image : ℕ)
  deriving DecidableEq, Repr

/-- State of SurfaceManager (src/display/surface_manager.py, lines 14-36):
the output and render dimensions, the current and previous background
surfaces, the transition progress, and the single pending-update slot
written by the producer thread. Converting a PIL image to a pygame
surface keeps the opaque payload, so surfaces carry ImageData too. The
snapshots directory and render-request metadata are not modelled. -/
structure SurfaceState where
  display_width : ℕ
  display_height : ℕ
  render_width : ℕ
  render_height : ℕ
  background_surface : Option ImageData
  previous_background : Option ImageData
  transition_progress : ℚ
  pending_background : Option ImageData
  deriving DecidableEq, Repr

/-- A frame returned by SurfaceManager.get_display_background: either the
current background smoothscaled to the display size, or a transition
composite of the previous background drawn opaque with the current one
blitted over it at alpha int(255 * transition_progress). -/
inductive Frame
  | scaled (w h : ℕ) (image : ImageData)
  | blend (w h : ℕ) (prev current : ImageData) (alpha : ℤ)
  deriving DecidableEq, Repr

namespace SurfaceManager

/-- SurfaceManager.__init__ (surface_manager.py, lines 14-36): no
surfaces yet, transition_progress starts fully transitioned at 1.0, and
the pending slot is empty. -/
def init (display_width display_height render_width render_height : ℕ) : SurfaceState :=
  { display_width := display_width, display_height := display_height,
    render_width := render_width, render_height := render_height,
    background_surface := none, previous_background := none,
    transition_progress := 1, pending_background := none }

/-- SurfaceManager.queue_background_update (surface_manager.py, lines
38-47): store the PIL image in the pending slot, overwriting any unread
previous content. -/
def queue_background_update (image_data : ImageData) (s : SurfaceState) : SurfaceState :=
  { s with pending_background := some image_data }

/-- SurfaceManager.update_background (surface_manager.py, lines 57-73):
if a current background exists, save it as previous and reset
transition_progress to 0; then adopt the new image as the current
background surface. -/
def update_background (image_data : ImageData) (s : SurfaceState) : SurfaceState :=
  match s.background_surface with
  | some _ =>
      { s with previous_background := s.background_surface,
               transition_progress := 0,
               background_surface := some image_data }
  | none => { s with background_surface := some image_data }

/-- SurfaceManager.apply_pending_updates (surface_manager.py, lines
49-55): on the consumer thread, if the pending slot is non-empty, adopt
its content via update_background and clear the slot; otherwise do
nothing. -/
def apply_pending_updates (s : SurfaceState) : SurfaceState :=
  match s.pending_background with
  | some image_data => { update_background image_data s with pending_background := none }
  | none => s

/-- SurfaceManager.get_display_background (surface_manager.py, lines
75-119): with no current background return nothing; during a transition
(previous exists and progress below 1) advance transition_progress by
1 / (fps * transition_duration), clamp at 1, and return the blended
composite; otherwise return the current background scaled to the display
size, leaving the state untouched. -/
def get_display_background (fps transition_duration : ℚ) (s : SurfaceState) :
    Option Frame × SurfaceState :=
  match s.background_surface with
  | none => (none, s)
  | some current =>
    match s.previous_background with
    | some prev =>
      if s.transition_progress < 1 then
        let p := min 1 (s.transition_progress + 1 / (fps * transition_duration))
        (some (Frame.blend s.display_width s.display_height prev current ⌊255 * p⌋),
          { s with transition_progress := p })
      else
        (some (Frame.scaled s.display_width s.display_height current), s)
    | none => (some (Frame.scaled s.display_width s.display_height current), s)

/-- The state effect of one get_display_background call. -/
def frameStep (fps transition_duration : ℚ) (s : SurfaceState) : SurfaceState :=
  (get_display_background fps transition_duration s).2

/-- The state after k successive get_display_background calls. -/
def frameIter (fps transition_duration : ℚ) : ℕ → SurfaceState → SurfaceState
  | 0, s => s
  | k + 1, s => frameStep fps transition_duration (frameIter fps transition_duration k s)

end SurfaceManager

/-- The settled-display invariant of the spec: whenever the previous
background is absent, the transition progress is 1. -/
def Settled (s : SurfaceState) : Prop :=
  s.previous_background = none → s.transition_progress = 1

/-- C5. Mailbox last-write-wins and empty-read idempotence: queueing a
then b and applying yields exactly what queueing b alone yields, the
adopted background is b with the slot cleared; and applying on an empty
slot changes nothing, so repeating it has no further effect. -/
theorem mailbox_last_write_wins (a b : ImageData) (s : SurfaceState) :
    SurfaceManager.apply_pending_updates
        (SurfaceManager.queue_background_update b
          (SurfaceManager.queue_background_update a s)) =
      SurfaceManager.apply_pending_updates (SurfaceManager.queue_background_update b s) ∧
    (SurfaceManager.apply_pending_updates
        (SurfaceManager.queue_background_update b
          (SurfaceManager.queue_background_update a s))).background_surface = some b ∧
    (SurfaceManager.apply_pending_updates
        (SurfaceManager.queue_background_update b
          (SurfaceManager.queue_background_update a s))).pending_background = none ∧
    (s.pending_background = none → SurfaceManager.apply_pending_updates s = s) := by
  refine ⟨rfl, ?_, ?_, ?_⟩
  · cases hb : s.background_surface <;>
      simp [SurfaceManager.apply_pending_updates, SurfaceManager.queue_background_update,
        SurfaceManager.update_background, hb]
  · cases hb : s.background_surface <;>
      simp [SurfaceManager.apply_pending_updates, SurfaceManager.queue_background_update,
        SurfaceManager.update_background, hb]
  · intro h
    simp [SurfaceManager.apply_pending_updates, h]

/-- Witness for C5: applying pending updates on the freshly initialized
manager, whose slot is empty, changes nothing. -/
theorem mailbox_last_write_wins_witness :
    SurfaceManager.apply_pending_updates (SurfaceManager.init 800 600 512 512) =
      SurfaceManager.init 800 600 512 512 :=
  (mailbox_last_write_wins (ImageData.chart 1) (ImageData.chart 2)
      (SurfaceManager.init 800 600 512 512)).2.2.2 rfl

/-- C7. Settled-frame identity: when the previous background is absent or
the transition progress has reached 1, get_display_background returns the
current background scaled to the display size (nothing when there is no
current background), composited with nothing, and leaves the whole state
unchanged. -/
theorem settled_frame_identity (fps transition_duration : ℚ) (s : SurfaceState)
    (h : s.previous_background = none ∨ 1 ≤ s.transition_progress) :
    SurfaceManager.get_display_background fps transition_duration s =
      (s.background_surface.map
        (fun c => Frame.scaled s.display_width s.display_height c), s) := by
  cases hb : s.background_surface with
  | none => simp [SurfaceManager.get_display_background, hb]
  | some current =>
    cases hp : s.previous_background with
    | none => simp [SurfaceManager.get_display_background, hb, hp]
    | some prev =>
      rcases h with h | h
      · rw [hp] at h
        exact absurd h (by simp)
      · have hnl : ¬ s.transition_progress < 1 := not_lt.mpr h
        simp [SurfaceManager.get_display_background, hb, hp, hnl]

/-- Witness for C7 on the freshly initialized manager, whose previous
background is absent. -/
theorem settled_frame_identity_witness :
    SurfaceManager.get_display_background 30 2 (SurfaceManager.init 800 600 512 512) =
      ((SurfaceManager.init 800 600 512 512).background_surface.map
        (fun c => Frame.scaled 800 600 c), SurfaceManager.init 800 600 512 512) :=
  settled_frame_identity 30 2 (SurfaceManager.init 800 600 512 512) (Or.inl rfl)

/-- C9. Settled-display invariant: the initial state satisfies it, and
adopting a new background (including the very first one), queueing,
applying pending updates, and frame computation all preserve it. -/
theorem settled_invariant (dw dh rwidth rheight : ℕ) (fps transition_duration : ℚ)
    (image_data : ImageData) (s : SurfaceState) :
    Settled (SurfaceManager.init dw dh rwidth rheight) ∧
    (Settled s → Settled (SurfaceManager.update_background image_data s)) ∧
    (Settled s → Settled (SurfaceManager.queue_background_update image_data s)) ∧
    (Settled s → Settled (SurfaceManager.apply_pending_updates s)) ∧
    (Settled s → Settled (SurfaceManager.frameStep fps transition_duration s)) := by
  refine ⟨fun _ => rfl, ?_, fun hs => hs, ?_, ?_⟩
  · intro hs
    cases hb : s.background_surface with
    | some c =>
      intro hp
      simp [SurfaceManager.update_background, hb] at hp
    | none =>
      intro hp
      have hp' : s.previous_background = none := by
        simpa [SurfaceManager.update_background, hb] using hp
      simpa [SurfaceManager.update_background, hb] using hs hp'
  · intro hs
    cases hq : s.pending_background with
    | none => simpa [Settled, SurfaceManager.apply_pending_updates, hq] using hs
    | some pending =>
      cases hb : s.background_surface with
      | some c =>
        intro hp
        simp [SurfaceManager.apply_pending_updates, hq,
          SurfaceManager.update_background, hb] at hp
      | none =>
        intro hp
        have hp' : s.previous_background = none := by
          simpa [SurfaceManager.apply_pending_updates, hq,
            SurfaceManager.update_background, hb] using hp
        simpa [SurfaceManager.apply_pending_updates, hq,
          SurfaceManager.update_background, hb] using hs hp'
  · intro hs
    cases hb : s.background_surface with
    | none =>
      simpa [Settled, SurfaceManager.frameStep,
        SurfaceManager.get_display_background, hb] using hs
    | some current =>
      cases hp : s.previous_background with
      | none =>
        simpa [Settled, SurfaceManager.frameStep,
          SurfaceManager.get_display_background, hb, hp] using hs
      | some prev =>
        by_cases hlt : s.transition_progress < 1
        · intro hcontra
          simp [SurfaceManager.frameStep,
            SurfaceManager.get_display_background, hb, hp, hlt] at hcontra
        · simp [Settled, SurfaceManager.frameStep,
            SurfaceManager.get_display_background, hb, hp, hlt]

/-- Witness for C9: one frame computation from the settled initial state
stays settled. -/
theorem settled_invariant_witness :
    Settled (SurfaceManager.frameStep 30 2 (SurfaceManager.init 800 600 512 512)) :=
  (settled_invariant 800 600 512 512 30 2 (ImageData.chart 0)
      (SurfaceManager.init 800 600 512 512)).2.2.2.2 (fun _ => rfl)

theorem frameStep_background (fps transition_duration : ℚ) (s : SurfaceState) :
    (SurfaceManager.frameStep fps transition_duration s).background_surface =
      s.background_surface := by
  cases hb : s.background_surface with
  | none => simp [SurfaceManager.frameStep, SurfaceManager.get_display_background, hb]
  | some current =>
    cases hp : s.previous_background with
    | none => simp [SurfaceManager.frameStep, SurfaceManager.get_display_background, hb, hp]
    | some prev =>
      by_cases hlt : s.transition_progress < 1 <;>
        simp [SurfaceManager.frameStep, SurfaceManager.get_display_background, hb, hp, hlt]

theorem frameStep_previous (fps transition_duration : ℚ) (s : SurfaceState) :
    (SurfaceManager.frameStep fps transition_duration s).previous_background =
      s.previous_background := by
  cases hb : s.background_surface with
  | none => simp [SurfaceManager.frameStep, SurfaceManager.get_display_background, hb]
  | some current =>
    cases hp : s.previous_background with
    | none => simp [SurfaceManager.frameStep, SurfaceManager.get_display_background, hb, hp]
    | some prev =>
      by_cases hlt : s.transition_progress < 1 <;>
        simp [SurfaceManager.frameStep, SurfaceManager.get_display_background, hb, hp, hlt]

theorem frameStep_progress (fps transition_duration : ℚ) (s : SurfaceState)
    (hb : s.background_surface.isSome = true)
    (hp : s.previous_background.isSome = true) :
    (SurfaceManager.frameStep fps transition_duration s).transition_progress =
      if s.transition_progress < 1 then
        min 1 (s.transition_progress + 1 / (fps * transition_duration))
      else s.transition_progress := by
  obtain ⟨current, hb⟩ := Option.isSome_iff_exists.mp hb
  obtain ⟨prev, hp⟩ := Option.isSome_iff_exists.mp hp
  by_cases hlt : s.transition_progress < 1 <;>
    simp [SurfaceManager.frameStep, SurfaceManager.get_display_background, hb, hp, hlt]

theorem frameIter_background (fps transition_duration : ℚ) (s : SurfaceState) (k : ℕ) :
    (SurfaceManager.frameIter fps transition_duration k s).background_surface =
      s.background_surface := by
  induction k with
  | zero => rfl
  | succ k ih => rw [SurfaceManager.frameIter, frameStep_background, ih]

theorem frameIter_previous (fps transition_duration : ℚ) (s : SurfaceState) (k : ℕ) :
    (SurfaceManager.frameIter fps transition_duration k s).previous_background =
      s.previous_background := by
  induction k with
  | zero => rfl
  | succ k ih => rw [SurfaceManager.frameIter, frameStep_previous, ih]

/-- Closed form of the transition progress: starting a transition at
progress 0, after k frames the progress is the clamp at 1 of
k / (fps * transition_duration). -/
theorem frameIter_progress_closed (fps transition_duration : ℚ) (s : SurfaceState)
    (hfps : 0 < fps) (htd : 0 < transition_duration)
    (hb : s.background_surface.isSome = true)
    (hp : s.previous_background.isSome = true)
    (h0 : s.transition_progress = 0) (k : ℕ) :
    (SurfaceManager.frameIter fps transition_duration k s).transition_progress =
      min 1 ((k : ℚ) / (fps * transition_duration)) := by
  have hN : 0 < fps * transition_duration := mul_pos hfps htd
  induction k with
  | zero =>
    rw [SurfaceManager.frameIter, h0]
    norm_num
  | succ k ih =>
    rw [SurfaceManager.frameIter,
      frameStep_progress fps transition_duration _
        (by rw [frameIter_background]; exact hb)
        (by rw [frameIter_previous]; exact hp),
      ih]
    have hcast : ((k + 1 : ℕ) : ℚ) = (k : ℚ) + 1 := by push_cast; ring
    rw [hcast]
    by_cases hk : (k : ℚ) / (fps * transition_duration) < 1
    · rw [min_eq_right hk.le, if_pos hk, div_add_div_same]
    · push_neg at hk
      rw [min_eq_left hk, if_neg (lt_irrefl 1)]
      have hle : (k : ℚ) / (fps * transition_duration) ≤
          ((k : ℚ) + 1) / (fps * transition_duration) := by
        rw [div_le_div_iff_of_pos_right hN]
        linarith
      exact (min_eq_left (le_trans hk hle)).symm

/-- C6. Crossfade monotonicity: with a transition in progress from
progress 0, each frame adds exactly 1 / (fps * transition_duration), so
the progress after k frames is the clamp at 1 of that linear ramp, it
rises strictly while below 1, stays below 1 for fewer than
fps * transition_duration frames, and equals 1 from frame number
fps * transition_duration (the transition duration divided by the frame
interval) onward. -/
theorem crossfade_monotone (fps transition_duration : ℚ) (s : SurfaceState)
    (hfps : 0 < fps) (htd : 0 < transition_duration)
    (hb : s.background_surface.isSome = true)
    (hp : s.previous_background.isSome = true)
    (h0 : s.transition_progress = 0) :
    (∀ k : ℕ, (SurfaceManager.frameIter fps transition_duration k s).transition_progress =
        min 1 ((k : ℚ) / (fps * transition_duration))) ∧
    (∀ k : ℕ, (k : ℚ) + 1 ≤ fps * transition_duration →
      (SurfaceManager.frameIter fps transition_duration k s).transition_progress <
        (SurfaceManager.frameIter fps transition_duration (k + 1) s).transition_progress) ∧
    (∀ k : ℕ, (k : ℚ) < fps * transition_duration →
      (SurfaceManager.frameIter fps transition_duration k s).transition_progress < 1) ∧
    (∀ k : ℕ, fps * transition_duration ≤ (k : ℚ) →
      (SurfaceManager.frameIter fps transition_duration k s).transition_progress = 1) := by
  have hN : 0 < fps * transition_duration := mul_pos hfps htd
  have hc := frameIter_progress_closed fps transition_duration s hfps htd hb hp h0
  refine ⟨hc, ?_, ?_, ?_⟩
  · intro k hk
    rw [hc k, hc (k + 1)]
    have hcast : ((k + 1 : ℕ) : ℚ) = (k : ℚ) + 1 := by push_cast; ring
    rw [hcast]
    have h1 : ((k : ℚ) + 1) / (fps * transition_duration) ≤ 1 :=
      (div_le_one hN).mpr hk
    have h2 : (k : ℚ) / (fps * transition_duration) <
        ((k : ℚ) + 1) / (fps * transition_duration) := by
      rw [div_lt_div_iff_of_pos_right hN]
      linarith
    rw [min_eq_right h1, min_eq_right (le_of_lt (lt_of_lt_of_le h2 h1))]
    exact h2
  · intro k hk
    rw [hc k]
    have h1 : (k : ℚ) / (fps * transition_duration) < 1 := (div_lt_one hN).mpr hk
    rw [min_eq_right h1.le]
    exact h1
  · intro k hk
    rw [hc k]
    exact min_eq_left ((one_le_div hN).mpr hk)

/-- Witness for C6: with fps 2 and transition duration 1 from a state in
transition at progress 0, two frames drive the progress to exactly 1. -/
theorem crossfade_monotone_witness :
    (SurfaceManager.frameIter 2 1 2
        ⟨800, 600, 512, 512, some (ImageData.generated 5), some (ImageData.chart 4),
          0, none⟩).transition_progress = min 1 ((2 : ℕ) / ((2 : ℚ) * 1)) :=
  (crossfade_monotone 2 1
      ⟨800, 600, 512, 512, some (ImageData.generated 5), some (ImageData.chart 4), 0, none⟩
      (by norm_num) (by norm_num) rfl rfl rfl).1 2

namespace StockFetcher

/-- Cached-data state of StockFetcher (src/stock/stock_fetcher.py, lines
16-17): the last successfully fetched snapshot, an opaque handle. The
last_fetch_time field is never read by the refresh pipeline and is not
modelled. -/
structure State where
  last_data : Option ℕ
  deriving DecidableEq, Repr

/-- StockFetcher.fetch_data (stock_fetcher.py, lines 19-89). The raw
argument is the outcome of the Yahoo Finance try block: some snapshot on
success, none when it raises. On success the snapshot is returned and
cached; on failure the cached snapshot is returned if present, else
nothing. -/
def fetch_data (raw : Option ℕ) (st : State) : Option ℕ × State :=
  match raw with
  | some d => (some d, { last_data := some d })
  | none =>
    match st.last_data with
    | some cached => (some cached, st)
    | none => (none, st)

end StockFetcher

namespace BackgroundUpdater

/-- BackgroundUpdater._do_update (stockvision.py, lines 77-132). The
synthesize argument is the body of the inner try block (prompt generation
followed by the diffusion call) as a function of the snapshot: ok with a
generated image, or error when it raises. On a fetched snapshot the chart
is rendered; with diffusion enabled a successful synthesis queues the
generated image and a failing one falls back to queueing the chart; with
diffusion disabled the chart is queued directly; with no snapshot nothing
is queued. The finally block clears is_updating. The stock-overlay text
update is display-only and is not modelled. -/
def do_update (raw : Option ℕ) (diffusion_enabled : Bool)
    (synthesize : ℕ → Except Unit ℕ)
    (fetcher : StockFetcher.State) (surface : SurfaceState) (upd : UpdaterState) :
    StockFetcher.State × SurfaceState × UpdaterState :=
  let r := StockFetcher.fetch_data raw fetcher
  let surface' :=
    match r.1 with
    | none => surface
    | some stock_data =>
      if diffusion_enabled then
        match synthesize stock_data with
        | Except.ok image =>
            SurfaceManager.queue_background_update (ImageData.generated image) surface
        | Except.error _ =>
            SurfaceManager.queue_background_update (ImageData.chart stock_data) surface
      else
        SurfaceManager.queue_background_update (ImageData.chart stock_data) surface
  (r.2, surface', finish upd)

end BackgroundUpdater

/-- C2 counterexample: starting from the freshly initialized surface
manager with an empty mailbox slot, a cycle that fetches snapshot 7 and
whose synthesis step raises ends with the chart queued in the mailbox:
the mailbox does receive an artifact (the derived visual substituted as a
fallback), refuting the claim that a failed synthesis cycle publishes
nothing. -/
theorem synthesis_failure_claim_false :
    (SurfaceManager.init 800 600 512 512).pending_background = none ∧
    (BackgroundUpdater.do_update (some 7) true (fun _ => Except.error ())
        ⟨none⟩ (SurfaceManager.init 800 600 512 512) ⟨true, 0⟩).2.1.pending_background =
      some (ImageData.chart 7) :=
  ⟨rfl, rfl⟩

/-- C2 (amended). When the snapshot is fetched and the chart rendered
successfully but the synthesis step raises, the cycle does not abort
silently: it queues the derived chart into the Mailbox as a fallback
artifact (so the displayed background does change to the chart once
applied), and the finally block clears is_updating. -/
theorem synthesis_failure_fallback (d : ℕ) (raw : Option ℕ)
    (synthesize : ℕ → Except Unit ℕ)
    (fetcher : StockFetcher.State) (surface : SurfaceState) (upd : UpdaterState)
    (hfetch : (StockFetcher.fetch_data raw fetcher).1 = some d)
    (hsynth : synthesize d = Except.error ()) :
    (BackgroundUpdater.do_update raw true synthesize fetcher surface upd).2.1 =
      SurfaceManager.queue_background_update (ImageData.chart d) surface ∧
    (BackgroundUpdater.do_update raw true synthesize fetcher surface upd).2.2.is_updating =
      false := by
  constructor
  · simp [BackgroundUpdater.do_update, hfetch, hsynth]
  · rfl

/-- Witness for C2 (amended) on the concrete failing-synthesis cycle with
snapshot 7. -/
theorem synthesis_failure_fallback_witness :
    (BackgroundUpdater.do_update (some 7) true (fun _ => Except.error ())
        ⟨none⟩ (SurfaceManager.init 800 600 512 512) ⟨true, 0⟩).2.1 =
      SurfaceManager.queue_background_update (ImageData.chart 7)
        (SurfaceManager.init 800 600 512 512) ∧
    (BackgroundUpdater.do_update (some 7) true (fun _ => Except.error ())
        ⟨none⟩ (SurfaceManager.init 800 600 512 512) ⟨true, 0⟩).2.2.is_updating = false :=
  synthesis_failure_fallback 7 (some 7) (fun _ => Except.error ())
    ⟨none⟩ (SurfaceManager.init 800 600 512 512) ⟨true, 0⟩ rfl rfl

/-- C8. Fetch-failure contract: when the fetch raises, a cycle with a
cached snapshot substitutes it and still publishes an artifact into the
mailbox slot, while a cycle with an empty cache leaves the mailbox
untouched and ends with is_updating cleared. -/
theorem fetch_failure_contract (diffusion_enabled : Bool)
    (synthesize : ℕ → Except Unit ℕ)
    (fetcher : StockFetcher.State) (surface : SurfaceState) (upd : UpdaterState) :
    (∀ cached, fetcher.last_data = some cached →
      (BackgroundUpdater.do_update none diffusion_enabled synthesize
          fetcher surface upd).2.1.pending_background.isSome = true) ∧
    (fetcher.last_data = none →
      (BackgroundUpdater.do_update none diffusion_enabled synthesize
          fetcher surface upd).2.1 = surface ∧
      (BackgroundUpdater.do_update none diffusion_enabled synthesize
          fetcher surface upd).2.2.is_updating = false) := by
  constructor
  · intro cached hc
    cases diffusion_enabled with
    | false =>
      simp [BackgroundUpdater.do_update, StockFetcher.fetch_data, hc,
        SurfaceManager.queue_background_update]
    | true =>
      cases hs : synthesize cached <;>
        simp [BackgroundUpdater.do_update, StockFetcher.fetch_data, hc, hs,
          SurfaceManager.queue_background_update]
  · intro hc
    refine ⟨?_, rfl⟩
    simp [BackgroundUpdater.do_update, StockFetcher.fetch_data, hc]

/-- Witness for C8 with cache 3, a raising synthesis, and also the
empty-cache branch at its own state. -/
theorem fetch_failure_contract_witness :
    (BackgroundUpdater.do_update none true (fun _ => Except.error ())
        ⟨some 3⟩ (SurfaceManager.init 800 600 512 512)
        ⟨true, 7⟩).2.1.pending_background.isSome = true ∧
    (BackgroundUpdater.do_update none true (fun _ => Except.error ())
        ⟨none⟩ (SurfaceManager.init 800 600 512 512) ⟨true, 7⟩).2.1 =
      SurfaceManager.init 800 600 512 512 :=
  ⟨(fetch_failure_contract true (fun _ => Except.error ())
      ⟨some 3⟩ (SurfaceManager.init 800 600 512 512) ⟨true, 7⟩).1 3 rfl,
    ((fetch_failure_contract true (fun _ => Except.error ())
      ⟨none⟩ (SurfaceManager.init 800 600 512 512) ⟨true, 7⟩).2 rfl).1⟩

namespace SimplifiedDiffusionPipeline

/-- An image produced by SimplifiedDiffusionPipeline.generate: either the
first image of the diffusion result, or the solid fallback created by
Image.new with an RGB fill color. -/
inductive GenImage
  | rendered (image : ℕ)
  | solid (width height r g b : ℕ)
  deriving DecidableEq, Repr

/-- SimplifiedDiffusionPipeline.generate
(src/diffusion/simplified_pipeline.py, lines 101-170). The width and
height come from the render configuration; pipe_loaded reflects whether
self.pipe is set (when not, the method raises RuntimeError, modelled as
an error); pipe_result is the outcome of the try block around the
diffusion call, carrying the generated image handle and the random seed
on success. On any error inside the try block the method returns the
solid dark-gray (30, 30, 30) fallback image of the configured dimensions
with seed 0 instead of raising. -/
def generate (width height : ℕ) (pipe_loaded : Bool)
    (pipe_result : Except Unit (ℕ × ℕ)) : Except Unit (GenImage × ℕ) :=
  if pipe_loaded = false then
    Except.error ()
  else
    match pipe_result with
    | Except.ok (image, seed) => Except.ok (GenImage.rendered image, seed)
    | Except.error _ => Except.ok (GenImage.solid width height 30 30 30, 0)

end SimplifiedDiffusionPipeline

/-- C10. Synthesizer totality: on an initialized pipeline, generate never
propagates an error out of the generation step: it always returns ok, and
when the inner generation fails it returns the solid dark-gray
(30, 30, 30) image of the configured render dimensions paired with
seed 0. -/
theorem generate_total (width height : ℕ) (pipe_result : Except Unit (ℕ × ℕ)) :
    (∃ out, SimplifiedDiffusionPipeline.generate width height true pipe_result =
      Except.ok out) ∧
    SimplifiedDiffusionPipeline.generate width height true (Except.error ()) =
      Except.ok (SimplifiedDiffusionPipeline.GenImage.solid width height 30 30 30, 0) := by
  constructor
  · cases pipe_result with
    | ok v => exact ⟨(SimplifiedDiffusionPipeline.GenImage.rendered v.1, v.2),
        by simp [SimplifiedDiffusionPipeline.generate]⟩
    | error e => exact ⟨(SimplifiedDiffusionPipeline.GenImage.solid width height 30 30 30, 0),
        by simp [SimplifiedDiffusionPipeline.generate]⟩
  · rfl

/-- Witness for C10 at the configured render size 512 by 512 with a
failing inner generation. -/
theorem generate_total_witness :
    SimplifiedDiffusionPipeline.generate 512 512 true (Except.error ()) =
      Except.ok (SimplifiedDiffusionPipeline.GenImage.solid 512 512 30 30 30, 0) :=
  (generate_total 512 512 (Except.error ())).2

end StockVision
